import Mathlib

/-!
Shallow embedding of the `next-api-route` core (src/index.ts, final version):
the `Route` validation pipeline (`execute`), the onion middleware dispatch
(`handle` with its shared-cursor `next` continuation), the immutable
`RouteBuilder`, and the method router (`createRouter` / dispatch).

Modelling conventions:
- JS values exchanged with the host (request bodies, queries, handler
  results) are modelled by the JSON-like type `Val`; the engine never
  inspects them except for the `typeof result !== "undefined"` check,
  modelled by `Option Val` (`none` = `undefined`).
- The mutable `res` object is modelled by explicit state passing of
  `ResSt`; `res.statusCode` is a `Nat` where `0` plays the role of the
  JS falsy status in `res.statusCode || 200`.
- Asynchrony is erased: one request is a single cooperative chain, so
  `await` points are just sequential composition.
- Every call the engine makes to an external collaborator (a schema's
  `safeParseAsync`, the handler, `onError`, `onNotAllowed`) is recorded
  in an event trace; middleware and handlers may emit their own `mark`
  events (the "ordered side-effect log" of the tests).
- Thrown JS exceptions are modelled by the `err` field of the various
  output records; `JsError.fuelOut` is an interpreter artifact used by
  the fueled chain interpreter (the recursion of `next` is bounded in
  the source by the strictly increasing cursor; the fuel chosen by
  `Route.handle` dominates the nesting depth on all runs appearing in
  the theorems below).
-/

/-- JSON-like opaque values passed between the host and the engine. -/
inductive Val where
  | str (s : String)
  | num (n : Int)
  | bool (b : Bool)
  | null
  | obj (fields : List (String × Val))
  | arr (elems : List Val)

/-- A structured validation issue (zod's `ZodIssue`): passed through verbatim. -/
structure Issue where
  path : List String
  message : String
  code : String
deriving DecidableEq

/-- Thrown JS values. `validationError` is the library's `ValidationError`
(message + issue list); `genericError` is `new Error(msg)`; `other` is an
arbitrary thrown value identified by a tag; `fuelOut` is the interpreter
artifact described in the header. -/
inductive JsError where
  | validationError (message : String) (errors : List Issue)
  | genericError (message : String)
  | other (tag : Nat)
  | fuelOut

/-- Result of `safeParseAsync`: `{success: true, data}` or
`{success: false, error}` where only `error.errors` (the issue list) is
ever read by the engine. -/
inductive ParseResult where
  | success (data : Val)
  | failure (errors : List Issue)

/-- The `ZodSchemaLike` capability: anything with `safeParseAsync`. -/
structure ZodSchemaLike where
  safeParseASync : Val → ParseResult

/-- The default schema: always succeeds and returns the input unchanged. -/
def anySchema : ZodSchemaLike :=
  { safeParseASync := fun data => .success data }

/-- Observable events of one request: the engine logs each call it makes
to an external collaborator; middleware/handlers may log `mark`s. -/
inductive Event where
  | parseBodyCalled (raw : Val)
  | parseQueryCalled (raw : Val)
  | handlerCalled (body : Val) (query : Val)
  | onErrorCalled (e : JsError)
  | onNotAllowedCalled (method : String)
  | mark (tag : Nat)

/-- What the response body holds after a write. -/
inductive ResBody where
  | json (v : Val)
  | jsonErrorPayload (message : String) (errors : List Issue)
  | text (s : String)

/-- The mutable parts of the `res` object read or written by the engine. -/
structure ResSt where
  statusCode : Nat
  body : Option ResBody

/-- `res.status(code)`. -/
def ResSt.status (res : ResSt) (code : Nat) : ResSt :=
  { res with statusCode := code }

/-- `res.json(v)` for an engine-internal error payload or a handler value. -/
def ResSt.json (res : ResSt) (b : ResBody) : ResSt :=
  { res with body := some b }

/-- `res.send(text)`. -/
def ResSt.send (res : ResSt) (s : String) : ResSt :=
  { res with body := some (.text s) }

/-- The request fields the engine reads. -/
structure Req where
  method : String
  body : Val
  query : Val

/-- Outcome of a piece of effectful JS code: an optional thrown error,
the response state when it finished or threw, and the events it emitted. -/
structure Out where
  err : Option JsError
  res : ResSt
  events : List Event

/-- An arbitrary effectful action of middleware code (may write the
response, emit events and throw), not invoking `next`. -/
def Act : Type := Req → ResSt → Out

/-- Denotation of one middleware body: straight-line actions interleaved
with invocations of its `next` continuation. `done a` runs `a` and
returns without calling `next`; `callNext a k` runs `a`, awaits `next()`,
then continues as `k` (which may call `next` again). -/
inductive MW where
  | done (act : Act)
  | callNext (act : Act) (k : MW)

/-- Outcome of a handler: thrown error, returned value (`none` models the
`undefined` sentinel), final response state and emitted events. -/
structure HandlerOut where
  err : Option JsError
  result : Option Val
  res : ResSt
  events : List Event

/-- A route handler `(params) => void | TResponse | Promise<TResponse>`,
receiving `{req, res, body, query}` (the response is the threaded state). -/
def Handler : Type := Req → Val → Val → ResSt → HandlerOut

/-- The `Route` class fields. -/
structure Route where
  handler : Handler
  middlewares : List MW
  bodySchema : ZodSchemaLike
  querySchema : ZodSchemaLike

/-- The `RouteInit` options record of the `Route` constructor. -/
structure RouteInit where
  middlewares : Option (List MW)
  bodySchema : Option ZodSchemaLike
  querySchema : Option ZodSchemaLike

/-- The `Route` constructor: absent schemas default to `anySchema`,
absent middleware list defaults to `[]`. -/
def Route.ofInit (handler : Handler) (init : RouteInit) : Route :=
  { handler := handler
    middlewares := init.middlewares.getD []
    bodySchema := init.bodySchema.getD anySchema
    querySchema := init.querySchema.getD anySchema }

/-- `Route.execute`: the validation pipeline. Parse the body; on failure
throw `ValidationError("Failed to parse body", issues)`. Parse the query;
on failure throw `ValidationError("Failed to parse query", issues)`.
Invoke the handler with the parsed data. If the result is not `undefined`,
run `res.status(res.statusCode || 200); res.json(result)`. -/
def Route.execute (r : Route) (req : Req) (res : ResSt) : Out :=
  match r.bodySchema.safeParseASync req.body with
  | .failure errors =>
      { err := some (.validationError "Failed to parse body" errors)
        res := res
        events := [.parseBodyCalled req.body] }
  | .success body =>
    match r.querySchema.safeParseASync req.query with
    | .failure errors =>
        { err := some (.validationError "Failed to parse query" errors)
          res := res
          events := [.parseBodyCalled req.body, .parseQueryCalled req.query] }
    | .success query =>
      let pre : List Event :=
        [.parseBodyCalled req.body, .parseQueryCalled req.query,
         .handlerCalled body query]
      let h := r.handler req body query res
      match h.err with
      | some e => { err := some e, res := h.res, events := pre ++ h.events }
      | none =>
        match h.result with
        | none => { err := none, res := h.res, events := pre ++ h.events }
        | some v =>
          let res1 :=
            h.res.status (if h.res.statusCode = 0 then 200 else h.res.statusCode)
          { err := none, res := res1.json (.json v), events := pre ++ h.events }

/-- Outcome of a chain fragment: like `Out` but also returns the value of
the shared cursor (`index` in the source) after the fragment settles. -/
structure ChainOut where
  err : Option JsError
  cursor : Nat
  res : ResSt
  events : List Event

/-- Run one middleware body given the current `next` continuation.
Mirrors `await fn(req, res, next)`: errors from an action or from `next`
propagate; within one body the shared cursor advances across successive
`next` invocations. -/
def runMW (nextC : Nat → ResSt → ChainOut) (req : Req) :
    MW → Nat → ResSt → ChainOut
  | .done act, c, res =>
    let o := act req res
    { err := o.err, cursor := c, res := o.res, events := o.events }
  | .callNext act k, c, res =>
    let o1 := act req res
    match o1.err with
    | some e => { err := some e, cursor := c, res := o1.res, events := o1.events }
    | none =>
      let o2 := nextC c o1.res
      match o2.err with
      | some e =>
          { err := some e, cursor := o2.cursor, res := o2.res
            events := o1.events ++ o2.events }
      | none =>
        let o3 := runMW nextC req k o2.cursor o2.res
        { err := o3.err, cursor := o3.cursor, res := o3.res
          events := o1.events ++ o2.events ++ o3.events }

/-- The `next` continuation of `Route.handle`: read the link at the shared
cursor and advance it (`fns[index++]`); a middleware link runs with `next`
itself as continuation; the implicit final link runs `execute`; past the
end, return immediately. The fuel bounds the nesting depth of `next`
re-entries (see the header note). -/
def stepChain (r : Route) (req : Req) : Nat → Nat → ResSt → ChainOut
  | 0, c, res => { err := some .fuelOut, cursor := c, res := res, events := [] }
  | fuel + 1, c, res =>
    match r.middlewares.get? c with
    | some mw => runMW (stepChain r req fuel) req mw (c + 1) res
    | none =>
      if c = r.middlewares.length then
        let o := r.execute req res
        { err := o.err, cursor := c + 1, res := o.res, events := o.events }
      else
        { err := none, cursor := c + 1, res := res, events := [] }

/-- Fuel used by `Route.handle`: dominates the `next` nesting depth. -/
def routeFuel (r : Route) : Nat := r.middlewares.length + 2

/-- `Route.handle`: run the chain `[...middlewares, () => execute(req,res)]`
from cursor 0. -/
def Route.handle (r : Route) (req : Req) (res : ResSt) : Out :=
  let o := stepChain r req (routeFuel r) 0 res
  { err := o.err, res := o.res, events := o.events }

/-- The `RouteBuilder` fields: schemas are optional-absent until supplied. -/
structure RouteBuilder where
  middlewares : List MW
  bodySchema : Option ZodSchemaLike
  querySchema : Option ZodSchemaLike

/-- `builder.use(middleware)`: new builder with the middleware appended. -/
def RouteBuilder.use (b : RouteBuilder) (middleware : MW) : RouteBuilder :=
  { middlewares := b.middlewares ++ [middleware]
    bodySchema := b.bodySchema
    querySchema := b.querySchema }

/-- `builder.body(schema)`: new builder with the body schema replaced. -/
def RouteBuilder.body (b : RouteBuilder) (schema : ZodSchemaLike) : RouteBuilder :=
  { middlewares := b.middlewares
    bodySchema := some schema
    querySchema := b.querySchema }

/-- `builder.query(schema)`: new builder with the query schema replaced. -/
def RouteBuilder.query (b : RouteBuilder) (schema : ZodSchemaLike) : RouteBuilder :=
  { middlewares := b.middlewares
    bodySchema := b.bodySchema
    querySchema := some schema }

/-- `builder.build(handler)`: finalize into a `Route`. -/
def RouteBuilder.build (b : RouteBuilder) (handler : Handler) : Route :=
  Route.ofInit handler
    { middlewares := some b.middlewares
      bodySchema := b.bodySchema
      querySchema := b.querySchema }

/-- `route()`: the empty builder. -/
def route : RouteBuilder :=
  { middlewares := [], bodySchema := none, querySchema := none }

/-- `handleValidationError`: `res.status(400).json({message, errors})`. -/
def handleValidationError (message : String) (errors : List Issue)
    (req : Req) (res : ResSt) : ResSt :=
  (res.status 400).json (.jsonErrorPayload message errors)

/-- `defaultOnError`: a `ValidationError` becomes the 400 payload; any
other error becomes `res.status(500).send("Internal Server Error")`. -/
def defaultOnError (e : JsError) (req : Req) (res : ResSt) : ResSt :=
  match e with
  | .validationError message errors => handleValidationError message errors req res
  | _ => (res.status 500).send "Internal Server Error"

/-- `defaultOnNotAllowed`: `res.status(405).send("Method Not Allowed")`. -/
def defaultOnNotAllowed (method : String) (req : Req) (res : ResSt) : ResSt :=
  (res.status 405).send "Method Not Allowed"

/-- The fixed allowed-method set. -/
def allowedMethods : List String :=
  ["GET", "POST", "PUT", "DELETE", "PATCH", "OPTIONS", "TRACE"]

/-- The constructed router value: resolved routes map plus the two
fallback handlers. -/
structure Router where
  routesMap : List (String × Route)
  onError : JsError → Req → ResSt → ResSt
  onNotAllowed : String → Req → ResSt → ResSt

/-- The `options` argument of `createRouter`. -/
structure RouterOptions where
  onError : Option (JsError → Req → ResSt → ResSt)
  onNotAllowed : Option (String → Req → ResSt → ResSt)

/-- The first argument of `createRouter`: a literal method-to-route map
or a factory callback (which the source hands the `route` function). -/
inductive RoutesArg where
  | map (routes : List (String × Route))
  | factory (f : Unit → List (String × Route))

/-- `typeof routes === "function" ? routes(route) : routes`. -/
def RoutesArg.resolve : RoutesArg → List (String × Route)
  | .map m => m
  | .factory f => f ()

/-- `Object.keys(routes)` as the source applies it: to the raw argument.
A function value has no own enumerable keys, so a factory contributes
none. -/
def RoutesArg.keys : RoutesArg → List String
  | .map m => m.map Prod.fst
  | .factory _ => []

/-- The construction-time key check loop: throws
`new Error("Unsupported method " + method)` at the first bad key. -/
def checkMethods : List String → Except JsError Unit
  | [] => .ok ()
  | k :: rest =>
    if allowedMethods.contains k then checkMethods rest
    else .error (.genericError ("Unsupported method " ++ k))

/-- `createRouter`: resolve the routes map, default the fallback handlers,
validate the keys of the raw `routes` argument, and produce the router. -/
def createRouter (routes : RoutesArg) (options : Option RouterOptions) :
    Except JsError Router :=
  let routesMap := routes.resolve
  let onErrorH := (options.bind RouterOptions.onError).getD defaultOnError
  let onNotAllowedH := (options.bind RouterOptions.onNotAllowed).getD defaultOnNotAllowed
  match checkMethods routes.keys with
  | .error e => .error e
  | .ok _ =>
      .ok { routesMap := routesMap, onError := onErrorH, onNotAllowed := onNotAllowedH }

/-- Per-request dispatch of the returned router function: look up the
route by method; missing → `onNotAllowed`; found → `handle` inside the
single try/catch, errors going to `onError` verbatim. -/
def Router.dispatch (rt : Router) (req : Req) (res : ResSt) :
    ResSt × List Event :=
  match rt.routesMap.lookup req.method with
  | none => (rt.onNotAllowed req.method req res, [.onNotAllowedCalled req.method])
  | some r =>
    let o := Route.handle r req res
    match o.err with
    | none => (o.res, o.events)
    | some e => (rt.onError e req o.res, o.events ++ [.onErrorCalled e])

/-! ### Helper lemmas about the validation pipeline -/

/-- Body parse failure: `execute` throws the "Failed to parse body"
`ValidationError` with the adapter's issues, leaves the response
untouched, and neither the query parse nor the handler is called. -/
theorem execute_body_failure (r : Route) (req : Req) (res : ResSt)
    (errs : List Issue)
    (hb : r.bodySchema.safeParseASync req.body = .failure errs) :
    Route.execute r req res =
      { err := some (.validationError "Failed to parse body" errs)
        res := res
        events := [.parseBodyCalled req.body] } := by
  unfold Route.execute
  rw [hb]

/-- Query parse failure after a successful body parse: `execute` throws
the "Failed to parse query" `ValidationError`, leaves the response
untouched, and the handler is not called. -/
theorem execute_query_failure (r : Route) (req : Req) (res : ResSt)
    (b : Val) (errs : List Issue)
    (hb : r.bodySchema.safeParseASync req.body = .success b)
    (hq : r.querySchema.safeParseASync req.query = .failure errs) :
    Route.execute r req res =
      { err := some (.validationError "Failed to parse query" errs)
        res := res
        events := [.parseBodyCalled req.body, .parseQueryCalled req.query] } := by
  unfold Route.execute
  rw [hb, hq]

/-- Both parses succeed: the handler is invoked with exactly the parsed
data, and the pipeline's trace starts with the two parse events followed
by the handler-invocation event carrying that parsed data. -/
theorem execute_success_shape (r : Route) (req : Req) (res : ResSt)
    (b q : Val)
    (hb : r.bodySchema.safeParseASync req.body = .success b)
    (hq : r.querySchema.safeParseASync req.query = .success q) :
    Route.execute r req res =
      (let h := r.handler req b q res
       let pre : List Event :=
         [.parseBodyCalled req.body, .parseQueryCalled req.query,
          .handlerCalled b q]
       match h.err with
       | some e => { err := some e, res := h.res, events := pre ++ h.events }
       | none =>
         match h.result with
         | none => { err := none, res := h.res, events := pre ++ h.events }
         | some v =>
           let res1 :=
             h.res.status (if h.res.statusCode = 0 then 200 else h.res.statusCode)
           { err := none, res := res1.json (.json v), events := pre ++ h.events }) := by
  unfold Route.execute
  rw [hb, hq]

/-- A route with no middleware: `handle` is exactly the validation
pipeline (the chain consists of the single implicit final link). -/
theorem handle_nil_middlewares (r : Route) (req : Req) (res : ResSt)
    (hm : r.middlewares = []) :
    Route.handle r req res =
      { err := (r.execute req res).err
        res := (r.execute req res).res
        events := (r.execute req res).events } := by
  unfold Route.handle routeFuel stepChain
  rw [hm]
  simp

/-! ### C1 -/

/-- C1: the validation pipeline runs in strict order: the body parse runs
first (on failure nothing else runs and the result does not depend on the
query schema or the handler); the query parse runs only after a body
success (on failure the handler never runs); the handler runs only after
both successes and receives exactly the parsed body and query data, as
witnessed by the `handlerCalled` event the engine records at the call. -/
theorem c1_pipeline_strict_order (r : Route) (req : Req) (res : ResSt) :
    (∀ errs, r.bodySchema.safeParseASync req.body = .failure errs →
      Route.execute r req res =
        { err := some (.validationError "Failed to parse body" errs)
          res := res
          events := [.parseBodyCalled req.body] }) ∧
    (∀ b errs, r.bodySchema.safeParseASync req.body = .success b →
      r.querySchema.safeParseASync req.query = .failure errs →
      Route.execute r req res =
        { err := some (.validationError "Failed to parse query" errs)
          res := res
          events := [.parseBodyCalled req.body, .parseQueryCalled req.query] }) ∧
    (∀ b q, r.bodySchema.safeParseASync req.body = .success b →
      r.querySchema.safeParseASync req.query = .success q →
      ∃ oerr ores tail,
        Route.execute r req res =
          { err := oerr
            res := ores
            events :=
              [.parseBodyCalled req.body, .parseQueryCalled req.query,
               .handlerCalled b q] ++ tail }) := by
  refine ⟨?_, ?_, ?_⟩
  · intro errs hb
    exact execute_body_failure r req res errs hb
  · intro b errs hb hq
    exact execute_query_failure r req res b errs hb hq
  · intro b q hb hq
    rw [execute_success_shape r req res b q hb hq]
    cases he : (r.handler req b q res).err with
    | some e =>
        exact ⟨some e, (r.handler req b q res).res, (r.handler req b q res).events,
          by simp [he]⟩
    | none =>
        cases hres : (r.handler req b q res).result with
        | none =>
            exact ⟨none, (r.handler req b q res).res, (r.handler req b q res).events,
              by simp [he, hres]⟩
        | some v =>
            exact ⟨none,
              ((r.handler req b q res).res.status
                (if (r.handler req b q res).res.statusCode = 0 then 200
                 else (r.handler req b q res).res.statusCode)).json (.json v),
              (r.handler req b q res).events, by simp [he, hres]⟩

/-! ### Concrete fixtures for witnesses -/

/-- A concrete validation issue. -/
def exIssue : Issue := { path := ["foo"], message := "Required", code := "invalid_type" }

/-- A schema that always fails with `[exIssue]`. -/
def failSchema : ZodSchemaLike := { safeParseASync := fun _ => .failure [exIssue] }

/-- A handler that returns `undefined` and does nothing. -/
def exHandlerNone : Handler :=
  fun _ _ _ res => { err := none, result := none, res := res, events := [] }

/-- A concrete JSON value. -/
def exVal : Val := .obj [("hello", .str "world")]

/-- A handler that returns `exVal` and does nothing else. -/
def exHandlerVal : Handler :=
  fun _ _ _ res => { err := none, result := some exVal, res := res, events := [] }

/-- A concrete GET request with `null` body and query. -/
def exReq : Req := { method := "GET", body := .null, query := .null }

/-- A fresh response state. -/
def exRes : ResSt := { statusCode := 0, body := none }

/-- A middleware-free route whose body schema always fails. -/
def exRouteBadBody : Route :=
  { handler := exHandlerNone, middlewares := []
    bodySchema := failSchema, querySchema := anySchema }

/-- A middleware-free route with default schemas whose handler returns `exVal`. -/
def exRouteVal : Route :=
  { handler := exHandlerVal, middlewares := []
    bodySchema := anySchema, querySchema := anySchema }

/-- C1 witness: on the always-failing body schema the pipeline stops at the
body parse with the "Failed to parse body" error. -/
theorem c1_pipeline_strict_order_witness :
    Route.execute exRouteBadBody exReq exRes =
      { err := some (.validationError "Failed to parse body" [exIssue])
        res := exRes
        events := [.parseBodyCalled .null] } :=
  (c1_pipeline_strict_order exRouteBadBody exReq exRes).1 [exIssue] rfl

/-! ### C5 -/

/-- C5: after both parses succeed, if the handler's result is not the
`undefined` sentinel the response status becomes the already-set (nonzero)
status or else 200 and the result is serialized as the JSON body; if the
result is the sentinel, the normalization step writes neither status nor
body (the response is exactly the handler's own final response state). -/
theorem c5_result_normalization (r : Route) (req : Req) (res : ResSt) (b q : Val)
    (hb : r.bodySchema.safeParseASync req.body = .success b)
    (hq : r.querySchema.safeParseASync req.query = .success q) :
    (∀ v, (r.handler req b q res).err = none →
      (r.handler req b q res).result = some v →
      Route.execute r req res =
        { err := none
          res :=
            { statusCode :=
                if (r.handler req b q res).res.statusCode = 0 then 200
                else (r.handler req b q res).res.statusCode
              body := some (.json v) }
          events :=
            [.parseBodyCalled req.body, .parseQueryCalled req.query,
             .handlerCalled b q] ++ (r.handler req b q res).events }) ∧
    ((r.handler req b q res).err = none →
      (r.handler req b q res).result = none →
      Route.execute r req res =
        { err := none
          res := (r.handler req b q res).res
          events :=
            [.parseBodyCalled req.body, .parseQueryCalled req.query,
             .handlerCalled b q] ++ (r.handler req b q res).events }) := by
  constructor
  · intro v he hres
    rw [execute_success_shape r req res b q hb hq]
    simp [he, hres, ResSt.status, ResSt.json]
  · intro he hres
    rw [execute_success_shape r req res b q hb hq]
    simp [he, hres]

/-- C5 witness: a fresh response plus a handler returning `exVal` yields
status 200 and the JSON body `exVal`. -/
theorem c5_result_normalization_witness :
    Route.execute exRouteVal exReq exRes =
      { err := none
        res := { statusCode := 200, body := some (.json exVal) }
        events :=
          [.parseBodyCalled .null, .parseQueryCalled .null,
           .handlerCalled .null .null] } :=
  (c5_result_normalization exRouteVal exReq exRes .null .null rfl rfl).1 exVal rfl rfl

/-! ### C9 -/

/-- C9: every builder operation is pure on its receiver: `use` only
appends the middleware at the end (preserving prior order), `body` only
replaces the body schema, `query` only replaces the query schema, all
other fields are carried over unchanged, and `build` consumes the
builder's fields without altering them, so one partially configured
builder can produce several routes. -/
theorem c9_builder_frame (b : RouteBuilder) (m : MW) (s s' : ZodSchemaLike)
    (h h' : Handler) :
    (b.use m).middlewares = b.middlewares ++ [m] ∧
    (b.use m).bodySchema = b.bodySchema ∧
    (b.use m).querySchema = b.querySchema ∧
    (b.body s).bodySchema = some s ∧
    (b.body s).middlewares = b.middlewares ∧
    (b.body s).querySchema = b.querySchema ∧
    (b.query s').querySchema = some s' ∧
    (b.query s').middlewares = b.middlewares ∧
    (b.query s').bodySchema = b.bodySchema ∧
    ((b.use m).build h).middlewares = b.middlewares ++ [m] ∧
    (b.build h').middlewares = b.middlewares ∧
    (b.build h').handler = h' :=
  ⟨rfl, rfl, rfl, rfl, rfl, rfl, rfl, rfl, rfl, rfl, rfl, rfl⟩

/-! ### C10 -/

/-- C10: when body or query validation fails, `Route.handle` itself writes
nothing to the response: it rejects with the `ValidationError` and the
response state it hands back is exactly the one it received (no status,
no body written below the router's catch point). -/
theorem c10_handle_writes_nothing_on_validation_failure
    (r : Route) (req : Req) (res : ResSt) (hm : r.middlewares = []) :
    (∀ errs, r.bodySchema.safeParseASync req.body = .failure errs →
      Route.handle r req res =
        { err := some (.validationError "Failed to parse body" errs)
          res := res
          events := [.parseBodyCalled req.body] }) ∧
    (∀ b errs, r.bodySchema.safeParseASync req.body = .success b →
      r.querySchema.safeParseASync req.query = .failure errs →
      Route.handle r req res =
        { err := some (.validationError "Failed to parse query" errs)
          res := res
          events := [.parseBodyCalled req.body, .parseQueryCalled req.query] }) := by
  constructor
  · intro errs hb
    rw [handle_nil_middlewares r req res hm, execute_body_failure r req res errs hb]
  · intro b errs hb hq
    rw [handle_nil_middlewares r req res hm,
      execute_query_failure r req res b errs hb hq]

/-- C10 witness: on the failing body schema, `handle` rejects and returns
the response state unchanged. -/
theorem c10_handle_writes_nothing_witness :
    Route.handle exRouteBadBody exReq exRes =
      { err := some (.validationError "Failed to parse body" [exIssue])
        res := exRes
        events := [.parseBodyCalled .null] } :=
  (c10_handle_writes_nothing_on_validation_failure exRouteBadBody exReq exRes
    rfl).1 [exIssue] rfl

/-! ### Helper lemmas about router dispatch -/

/-- Dispatch of a matched route whose `handle` rejects: the error is
passed verbatim to `onError`, together with the response state as the
route left it, and the router records exactly one `onErrorCalled` event. -/
theorem dispatch_route_error (rt : Router) (req : Req) (res : ResSt)
    (r : Route) (e : JsError)
    (hl : rt.routesMap.lookup req.method = some r)
    (he : (Route.handle r req res).err = some e) :
    Router.dispatch rt req res =
      (rt.onError e req (Route.handle r req res).res,
       (Route.handle r req res).events ++ [.onErrorCalled e]) := by
  unfold Router.dispatch
  rw [hl]
  simp [he]

/-- Dispatch of a matched route whose `handle` settles normally: the
route's response state and trace are returned as is. -/
theorem dispatch_route_ok (rt : Router) (req : Req) (res : ResSt) (r : Route)
    (hl : rt.routesMap.lookup req.method = some r)
    (he : (Route.handle r req res).err = none) :
    Router.dispatch rt req res =
      ((Route.handle r req res).res, (Route.handle r req res).events) := by
  unfold Router.dispatch
  rw [hl]
  simp [he]

/-! ### C2 -/

/-- C2: on a middleware-free route behind a default router, a body
(resp. query) parse failure aborts with the `ValidationError` carrying
"Failed to parse body" (resp. "Failed to parse query") and the adapter's
issues verbatim; the handler is never invoked (the trace holds only the
parse events), and the final response is status 400 with the JSON payload
`{message, errors}`. -/
theorem c2_validation_failure_response (r : Route) (req : Req) (res : ResSt)
    (rt : Router) (hm : r.middlewares = []) (hmethod : req.method = "GET")
    (hrt : createRouter (.map [("GET", r)]) none = .ok rt) :
    (∀ errs, r.bodySchema.safeParseASync req.body = .failure errs →
      Router.dispatch rt req res =
        ({ statusCode := 400
           body := some (.jsonErrorPayload "Failed to parse body" errs) },
         [.parseBodyCalled req.body,
          .onErrorCalled (.validationError "Failed to parse body" errs)])) ∧
    (∀ b errs, r.bodySchema.safeParseASync req.body = .success b →
      r.querySchema.safeParseASync req.query = .failure errs →
      Router.dispatch rt req res =
        ({ statusCode := 400
           body := some (.jsonErrorPayload "Failed to parse query" errs) },
         [.parseBodyCalled req.body, .parseQueryCalled req.query,
          .onErrorCalled (.validationError "Failed to parse query" errs)])) := by
  have hrt' : createRouter (.map [("GET", r)]) none =
      .ok { routesMap := [("GET", r)], onError := defaultOnError
            onNotAllowed := defaultOnNotAllowed } := rfl
  rw [hrt'] at hrt
  cases hrt
  have hl : (([("GET", r)] : List (String × Route)).lookup req.method) = some r := by
    rw [hmethod]
    rfl
  constructor
  · intro errs hb
    have ho : Route.handle r req res =
        { err := some (.validationError "Failed to parse body" errs)
          res := res
          events := [.parseBodyCalled req.body] } := by
      rw [handle_nil_middlewares r req res hm, execute_body_failure r req res errs hb]
    unfold Router.dispatch
    rw [hl]
    simp [ho, defaultOnError, handleValidationError, ResSt.status, ResSt.json]
  · intro b errs hb hq
    have ho : Route.handle r req res =
        { err := some (.validationError "Failed to parse query" errs)
          res := res
          events := [.parseBodyCalled req.body, .parseQueryCalled req.query] } := by
      rw [handle_nil_middlewares r req res hm,
        execute_query_failure r req res b errs hb hq]
    unfold Router.dispatch
    rw [hl]
    simp [ho, defaultOnError, handleValidationError, ResSt.status, ResSt.json]

/-- C2 witness: the failing body schema behind a default router produces
the 400 validation payload and the handler is never invoked. -/
theorem c2_validation_failure_response_witness :
    Router.dispatch
      { routesMap := [("GET", exRouteBadBody)], onError := defaultOnError
        onNotAllowed := defaultOnNotAllowed } exReq exRes =
      ({ statusCode := 400
         body := some (.jsonErrorPayload "Failed to parse body" [exIssue]) },
       [.parseBodyCalled .null,
        .onErrorCalled (.validationError "Failed to parse body" [exIssue])]) :=
  (c2_validation_failure_response exRouteBadBody exReq exRes
    { routesMap := [("GET", exRouteBadBody)], onError := defaultOnError
      onNotAllowed := defaultOnNotAllowed } rfl rfl rfl).1 [exIssue] rfl

/-! ### C6 -/

/-- C6: a request whose method has no entry in the routes map makes the
router invoke `onNotAllowed(method, req, res)` and return: the trace
holds only that invocation (no middleware, no parse, no handler), and the
default `onNotAllowed` writes status 405 with a plain-text body. -/
theorem c6_method_not_allowed (rt : Router) (req : Req) (res : ResSt)
    (hl : rt.routesMap.lookup req.method = none) :
    Router.dispatch rt req res =
      (rt.onNotAllowed req.method req res, [.onNotAllowedCalled req.method]) ∧
    defaultOnNotAllowed req.method req res =
      { statusCode := 405, body := some (.text "Method Not Allowed") } := by
  constructor
  · unfold Router.dispatch
    rw [hl]
  · rfl

/-- C6 witness: an empty router answers a GET request with the default
405 response and nothing else runs. -/
theorem c6_method_not_allowed_witness :
    Router.dispatch
      { routesMap := [], onError := defaultOnError
        onNotAllowed := defaultOnNotAllowed } exReq exRes =
      ({ statusCode := 405, body := some (.text "Method Not Allowed") },
       [.onNotAllowedCalled "GET"]) :=
  (c6_method_not_allowed
    { routesMap := [], onError := defaultOnError
      onNotAllowed := defaultOnNotAllowed } exReq exRes rfl).1

/-! ### C7 -/

/-- C7: any error a matched route's `handle` rejects with — from a
middleware, a schema parse, or the handler — is caught at the router's
single dispatch point and passed to `onError` verbatim exactly once (the
dispatch trace appends exactly one `onErrorCalled` event carrying that
exact error); the default `onError` answers a `ValidationError` with
status 400 and its message and issue list, and anything else with a
500 plain-text response, so a `ValidationError` never escapes dispatch. -/
theorem c7_single_catch_point (rt : Router) (req : Req) (res : ResSt)
    (r : Route) (e : JsError)
    (hl : rt.routesMap.lookup req.method = some r)
    (he : (Route.handle r req res).err = some e) :
    Router.dispatch rt req res =
      (rt.onError e req (Route.handle r req res).res,
       (Route.handle r req res).events ++ [.onErrorCalled e]) ∧
    (∀ m errs, defaultOnError (.validationError m errs) req res =
      { statusCode := 400, body := some (.jsonErrorPayload m errs) }) ∧
    (∀ m, defaultOnError (.genericError m) req res =
      { statusCode := 500, body := some (.text "Internal Server Error") }) ∧
    (∀ t, defaultOnError (.other t) req res =
      { statusCode := 500, body := some (.text "Internal Server Error") }) :=
  ⟨dispatch_route_error rt req res r e hl he,
   fun _ _ => rfl, fun _ => rfl, fun _ => rfl⟩

/-- A handler that throws the opaque error tagged 7. -/
def exThrowHandler : Handler :=
  fun _ _ _ res => { err := some (.other 7), result := none, res := res, events := [] }

/-- A middleware-free route whose handler throws. -/
def exRouteThrow : Route :=
  { handler := exThrowHandler, middlewares := []
    bodySchema := anySchema, querySchema := anySchema }

/-- A default router holding only `exRouteThrow` under GET. -/
def rtThrow : Router :=
  { routesMap := [("GET", exRouteThrow)], onError := defaultOnError
    onNotAllowed := defaultOnNotAllowed }

/-- C7 witness: the thrown tag-7 error reaches `onError` verbatim exactly
once and the default handler answers 500. -/
theorem c7_single_catch_point_witness :
    Router.dispatch rtThrow exReq exRes =
      ({ statusCode := 500, body := some (.text "Internal Server Error") },
       [.parseBodyCalled .null, .parseQueryCalled .null,
        .handlerCalled .null .null, .onErrorCalled (.other 7)]) :=
  (c7_single_catch_point rtThrow exReq exRes exRouteThrow (.other 7) rfl rfl).1

/-! ### C8 -/

/-- A factory callback returning a map with the unsupported key "FOO". -/
def fooRoutesFactory : Unit → List (String × Route) :=
  fun _ => [("FOO", exRouteVal)]

/-- C8 (code bug witness): the construction-time key check iterates over
`Object.keys(routes)` — the raw argument — so when a factory callback is
supplied the function value contributes no keys and validation is
skipped: the router is created despite the unsupported key "FOO", while
the same map passed literally fails fast as the claim states. -/
theorem c8_factory_skips_method_validation :
    createRouter (.factory fooRoutesFactory) none =
      .ok { routesMap := [("FOO", exRouteVal)]
            onError := defaultOnError
            onNotAllowed := defaultOnNotAllowed } ∧
    createRouter (.map [("FOO", exRouteVal)]) none =
      .error (.genericError "Unsupported method FOO") :=
  ⟨rfl, rfl⟩

/-! ### The onion model of well-behaved middleware -/

/-- Spec-side onion semantics. Each well-behaved middleware is a
pre-`next` action paired with an optional post-`next` action (`none`
means it never invokes `next` and short-circuits). `inner` is the
implicit innermost link. Pre actions run front to back, the inner link
runs if every layer called `next`, post actions unwind back to front,
and a thrown error propagates outward skipping the remaining layers. -/
def onion (req : Req) (inner : ResSt → Out) :
    List (Act × Option Act) → ResSt → Out
  | [], res => inner res
  | (a, none) :: _, res => a req res
  | (a, some b) :: rest, res =>
    let o1 := a req res
    match o1.err with
    | some e => { err := some e, res := o1.res, events := o1.events }
    | none =>
      let o2 := onion req inner rest o1.res
      match o2.err with
      | some e => { err := some e, res := o2.res, events := o1.events ++ o2.events }
      | none =>
        let o3 := b req o2.res
        { err := o3.err, res := o3.res
          events := o1.events ++ o2.events ++ o3.events }

/-- The middleware body denoted by a pre/post pair: `(a, none)` never
calls `next`; `(a, some b)` calls it exactly once between `a` and `b`. -/
def toMW : Act × Option Act → MW
  | (a, none) => .done a
  | (a, some b) => .callNext a (.done b)

/-- Characterization of the source's shared-cursor dispatch on a chain
whose remaining links are well-behaved pre/post middleware: it computes
exactly the onion semantics around the validation pipeline. The `suffix`
is dead code past a short-circuiting layer (it must be empty when every
listed layer calls `next`). -/
theorem stepChain_eq_onion (r : Route) (req : Req) :
    ∀ (ps : List (Act × Option Act)) (fuel c : Nat) (res : ResSt)
      (suffix : List MW),
      r.middlewares.drop c = ps.map toMW ++ suffix →
      c ≤ r.middlewares.length →
      (suffix = [] ∨ ps.any (fun p => p.2.isNone) = true) →
      ps.length + 1 ≤ fuel →
      ∃ c', stepChain r req fuel c res =
        { err := (onion req (r.execute req) ps res).err
          cursor := c'
          res := (onion req (r.execute req) ps res).res
          events := (onion req (r.execute req) ps res).events } := by
  intro ps
  induction ps with
  | nil =>
    intro fuel c res suffix hdrop hc hsc hfuel
    have hsuffix : suffix = [] := by
      rcases hsc with h | h
      · exact h
      · simp at h
    subst hsuffix
    simp only [List.map_nil, List.nil_append] at hdrop
    have hlen : r.middlewares.length ≤ c := List.drop_eq_nil_iff.mp hdrop
    have hceq : c = r.middlewares.length := le_antisymm hc hlen
    obtain ⟨fuel', rfl⟩ : ∃ f, fuel = f + 1 := ⟨fuel - 1, by omega⟩
    refine ⟨c + 1, ?_⟩
    rw [stepChain, List.get?_eq_none.mpr hlen]
    simp [onion, hceq]
  | cons p ps' ih =>
    intro fuel c res suffix hdrop hc hsc hfuel
    obtain ⟨a, ob⟩ := p
    have hget : r.middlewares.get? c = some (toMW (a, ob)) := by
      have h0 : (r.middlewares.drop c).get? 0 = some (toMW (a, ob)) := by
        rw [hdrop]
        rfl
      rw [List.get?_drop] at h0
      simpa using h0
    have hclt : c < r.middlewares.length := by
      by_contra hcl
      push_neg at hcl
      rw [List.drop_eq_nil_iff.mpr hcl] at hdrop
      exact absurd hdrop.symm (by simp)
    have hdrop' : r.middlewares.drop (c + 1) = ps'.map toMW ++ suffix := by
      rw [← List.tail_drop, hdrop]
      rfl
    obtain ⟨fuel', rfl⟩ : ∃ f, fuel = f + 1 := ⟨fuel - 1, by omega⟩
    rw [stepChain, hget]
    cases ob with
    | none =>
      refine ⟨c + 1, ?_⟩
      simp [toMW, runMW, onion]
    | some b =>
      have hsc' : suffix = [] ∨ ps'.any (fun p => p.2.isNone) = true := by
        rcases hsc with h | h
        · exact Or.inl h
        · rw [List.any_cons] at h
          simp only [Option.isNone_some, Bool.false_or] at h
          exact Or.inr h
      have hfuel' : ps'.length + 1 ≤ fuel' := by
        simp at hfuel
        omega
      simp only [toMW, runMW]
      cases h1 : (a req res).err with
      | some e =>
        refine ⟨c + 1, ?_⟩
        simp [onion, h1]
      | none =>
        obtain ⟨c'', hstep⟩ :=
          ih fuel' (c + 1) (a req res).res suffix hdrop' hclt hsc' hfuel'
        rw [hstep]
        cases h2 : (onion req (r.execute req) ps' (a req res).res).err with
        | some e =>
          refine ⟨c'', ?_⟩
          simp [onion, h1, h2]
        | none =>
          refine ⟨c'', ?_⟩
          simp [onion, runMW, h1, h2]

/-! ### C3 -/

/-- An action that only appends the given events to the log. -/
def emitAct (l : List Event) : Act :=
  fun _ res => { err := none, res := res, events := l }

/-- A handler that emits the given events and returns the given result. -/
def emitHandler (l : List Event) (result : Option Val) : Handler :=
  fun _ _ _ res => { err := none, result := result, res := res, events := l }

/-- C3: for `route().use(m1).use(m2).build(handler)` where both middleware
await their `next` once, a request runs in strict onion order: m1's
pre-`next` events, m2's pre-`next` events, the validation pipeline and
handler, m2's post-`next` events, m1's post-`next` events — registration
order on the way in, the implicit final link innermost, reverse
registration order on the way out. -/
theorem c3_onion_order (pre1 post1 pre2 post2 hev : List Event) (v : Val)
    (req : Req) (res : ResSt) :
    Route.handle
      (((route.use (toMW (emitAct pre1, some (emitAct post1)))).use
        (toMW (emitAct pre2, some (emitAct post2)))).build
        (emitHandler hev (some v)))
      req res =
      { err := none
        res := { statusCode := if res.statusCode = 0 then 200 else res.statusCode
                 body := some (.json v) }
        events :=
          pre1 ++ pre2 ++
          [.parseBodyCalled req.body, .parseQueryCalled req.query,
           .handlerCalled req.body req.query] ++ hev ++ post2 ++ post1 } := by
  obtain ⟨c', hstep⟩ := stepChain_eq_onion
    (((route.use (toMW (emitAct pre1, some (emitAct post1)))).use
      (toMW (emitAct pre2, some (emitAct post2)))).build
      (emitHandler hev (some v)))
    req
    [(emitAct pre1, some (emitAct post1)), (emitAct pre2, some (emitAct post2))]
    (routeFuel
      (((route.use (toMW (emitAct pre1, some (emitAct post1)))).use
        (toMW (emitAct pre2, some (emitAct post2)))).build
        (emitHandler hev (some v)))) 0 res []
    rfl (Nat.zero_le _) (Or.inl rfl)
    (by norm_num [routeFuel, route, RouteBuilder.use, RouteBuilder.build,
      Route.ofInit])
  unfold Route.handle
  rw [hstep]
  simp [onion, emitAct, emitHandler, Route.execute, anySchema, route,
    RouteBuilder.use, RouteBuilder.build, Route.ofInit, ResSt.status, ResSt.json]

/-! ### C4 -/

/-- An action that does nothing. -/
def noopAct : Act := fun _ res => { err := none, res := res, events := [] }

/-- A middleware that invokes its `next` continuation twice. -/
def doubleNextMW : MW := .callNext noopAct (.callNext noopAct (.done noopAct))

/-- A route where a double-`next` middleware precedes a middleware that
never calls `next`. -/
def c4CounterRoute : Route :=
  { handler := exHandlerVal, middlewares := [doubleNextMW, .done noopAct]
    bodySchema := anySchema, querySchema := anySchema }

/-- C4 counterexample: in `c4CounterRoute` the middleware at index 1
returns without ever invoking its `next` continuation, yet the schema
parses run, the handler is invoked, and the response body is written —
the preceding middleware invokes `next` a second time and the shared
cursor resumes past the declining layer into the final link. -/
theorem c4_short_circuit_counterexample :
    c4CounterRoute.middlewares.get? 1 = some (.done noopAct) ∧
    Route.handle c4CounterRoute exReq exRes =
      { err := none
        res := { statusCode := 200, body := some (.json exVal) }
        events := [.parseBodyCalled .null, .parseQueryCalled .null,
                   .handlerCalled .null .null] } :=
  ⟨rfl, rfl⟩

/-- The onion run of a chain ending in a layer that never calls `next`
does not depend on the innermost link. -/
theorem onion_inner_irrelevant (req : Req) (inner inner' : ResSt → Out) :
    ∀ (ps : List (Act × Option Act)) (a : Act) (res : ResSt),
      onion req inner (ps ++ [(a, none)]) res =
        onion req inner' (ps ++ [(a, none)]) res := by
  intro ps
  induction ps with
  | nil => intro a res; rfl
  | cons p ps' ih =>
    intro a res
    obtain ⟨x, ob⟩ := p
    cases ob with
    | none => rfl
    | some b =>
      simp only [List.cons_append, onion]
      have ih' : onion req inner (ps'.append [(a, none)]) (x req res).res =
          onion req inner' (ps'.append [(a, none)]) (x req res).res :=
        ih a (x req res).res
      rw [ih']

/-- C4 (amended): if a middleware returns without invoking its `next`
continuation and every middleware registered before it invokes `next` at
most once, nothing downstream of it executes: the request's outcome is
the onion run of the truncated chain around a trivial inner link,
independent of the later middleware, of both schemas and of the handler. -/
theorem c4_short_circuit_amended (r : Route) (req : Req) (res : ResSt)
    (ps : List (Act × Option Act)) (a : Act) (suffix : List MW)
    (hmids : r.middlewares = ps.map toMW ++ MW.done a :: suffix) :
    Route.handle r req res =
      onion req (fun s => { err := none, res := s, events := [] })
        (ps ++ [(a, none)]) res := by
  have hdrop : r.middlewares.drop 0 = (ps ++ [(a, none)]).map toMW ++ suffix := by
    rw [List.drop_zero, hmids]
    simp [toMW]
  have hsc : suffix = [] ∨ (ps ++ [(a, none)]).any (fun p => p.2.isNone) = true :=
    Or.inr (by simp)
  have hfuel : (ps ++ [(a, none)]).length + 1 ≤ routeFuel r := by
    unfold routeFuel
    rw [hmids]
    simp only [List.length_append, List.length_map, List.length_cons,
      List.length_nil]
    omega
  obtain ⟨c', hstep⟩ := stepChain_eq_onion r req (ps ++ [(a, none)])
    (routeFuel r) 0 res suffix hdrop (Nat.zero_le _) hsc hfuel
  unfold Route.handle
  rw [hstep]
  rw [onion_inner_irrelevant req (r.execute req)
    (fun s => { err := none, res := s, events := [] }) ps a res]

/-- C4 amended witness: a once-calling middleware before a declining one;
the outcome ignores even an always-failing body schema, since the
pipeline never runs. -/
theorem c4_short_circuit_amended_witness :
    Route.handle
      { handler := exHandlerVal
        middlewares := [toMW (emitAct [.mark 0], some (emitAct [.mark 9])),
                        .done (emitAct [.mark 1])]
        bodySchema := failSchema, querySchema := anySchema } exReq exRes =
      onion exReq (fun s => { err := none, res := s, events := [] })
        ([(emitAct [.mark 0], some (emitAct [.mark 9]))] ++
         [(emitAct [.mark 1], none)]) exRes :=
  c4_short_circuit_amended _ exReq exRes
    [(emitAct [.mark 0], some (emitAct [.mark 9]))] (emitAct [.mark 1]) [] rfl
